import Mathlib

/-!
Verification of the request-orchestration layer of the issuer-node dApp
(`internal/api/server.go`).

The handlers of `Server` are shallowly embedded as Lean functions.  External
collaborators (the identity, claims, schema and publisher services, the DID
and UUID parsing libraries, the merkle-tree element encoding and the protocol
package manager) are not part of the repository; each handler therefore takes
them as explicit function arguments (oracles).  A Go error value is compared
against sentinel errors with `errors.Is`; this is modelled by a tag carried by
the error value.  A Go handler returns a pair `(response, error)`; this is
modelled as `Except GoError Response`, where `Except.ok r` is `(r, nil)` and
`Except.error e` is `(nil, e)`.
-/

namespace IssuerAPI

/-- Sentinel identities recognised by `errors.Is` in `server.go`:
`services.ErrWrongDIDMetada`, `services.ErrJSONLdContext`,
`services.ErrProcessSchema`, `services.ErrLoadingSchema`,
`services.ErrMalformedURL`, `repositories.ErrClaimDoesNotExist`,
`services.ErrClaimNotFound`, `gateways.ErrNoStatesToProcess`,
`gateways.ErrStateIsBeingProcessed`; `other` stands for any error that
matches none of the sentinels. -/
inductive ErrTag where
  | wrongDIDMetadata
  | jsonLdContext
  | processSchema
  | loadingSchema
  | malformedURL
  | claimDoesNotExist
  | claimNotFound
  | noStatesToProcess
  | stateIsBeingProcessed
  | other
  deriving DecidableEq, Repr

/-- A Go `error`: its sentinel identity (for `errors.Is`) and the message
returned by `err.Error()`. -/
structure GoError where
  tag : ErrTag
  msg : String
  deriving DecidableEq, Repr

/-- A parsed DID (`core.DID`), opaque to this layer. -/
structure DID where
  s : String
  deriving DecidableEq, Repr

/-- The external `core.ParseDID`: either a parsed DID or an error whose
`Error()` message is the returned string. -/
abbrev ParseDID := String → Except String DID

/-- Request body of `CreateClaim` (fields are forwarded verbatim to the
claims service and are otherwise opaque). -/
structure CreateClaimBody where
  credentialSchema : String
  credentialSubject : String
  expiration : Option Int
  type : String
  version : Option Nat
  subjectPosition : Option String
  merklizedRootPosition : Option String
  deriving DecidableEq, Repr

/-- The claims-service response to `CreateClaim`: the created claim, of which
the handler only uses `resp.ID.String()`. -/
structure ClaimCreated where
  id : String
  deriving DecidableEq, Repr

/-- `CreateClaimResponseObject`: the union of
`CreateClaim{201,400,422,500}JSONResponse`. -/
inductive CreateClaimResponseObject where
  | r201 (id : String)
  | r400 (message : String)
  | r422 (message : String)
  | r500 (message : String)
  deriving DecidableEq, Repr

/-- `ports.NewCreateClaimRequest` composed with `claimService.CreateClaim`:
the constructor is a pure, total record builder outside the repository, so
the composite collaborator call is a single oracle from the parsed DID and
the request body. -/
abbrev CreateClaimSvc := DID → CreateClaimBody → Except GoError ClaimCreated

/-- `Server.CreateClaim` (server.go:103-128). -/
def createClaim (parseDID : ParseDID) (svc : CreateClaimSvc)
    (identifier : String) (body : CreateClaimBody) :
    Except GoError CreateClaimResponseObject :=
  match parseDID identifier with
  | .error m => .ok (.r400 m)
  | .ok did =>
    match svc did body with
    | .error e =>
      if e.tag = .jsonLdContext then .ok (.r400 e.msg)
      else if e.tag = .processSchema then .ok (.r400 e.msg)
      else if e.tag = .loadingSchema then .ok (.r422 e.msg)
      else if e.tag = .malformedURL then .ok (.r400 e.msg)
      else .ok (.r500 e.msg)
    | .ok resp => .ok (.r201 resp.id)

/-- `RevokeClaimResponseObject`: the union of
`RevokeClaim{202,404,500}JSONResponse`. -/
inductive RevokeClaimResponseObject where
  | r202 (message : String)
  | r404 (message : String)
  | r500 (message : String)
  deriving DecidableEq, Repr

/-- `claimService.Revoke`: called with the RAW identifier string, the nonce
and an empty description; `none` is a nil error. -/
abbrev RevokeSvc := String → Nat → Except GoError Unit

/-- `Server.RevokeClaim` (server.go:131-144).  Note that the handler never
parses `request.Identifier`: the raw string goes straight to the claims
service. -/
def revokeClaim (svc : RevokeSvc) (identifier : String) (nonce : Nat) :
    Except GoError RevokeClaimResponseObject :=
  match svc identifier nonce with
  | .error e =>
    if e.tag = .claimDoesNotExist then .ok (.r404 "the claim does not exist")
    else .ok (.r500 e.msg)
  | .ok _ => .ok (.r202 "claim revocation request sent")

/-- A merkle-tree hash (`merkletree.Hash`), opaque to this layer. -/
structure Hash where
  val : Nat
  deriving DecidableEq, Repr

/-- A wire byte array (`ByteArray` in the generated API types): the text
produced by the tree library's `MarshalText`. -/
abbrev ByteArrayW := String

/-- The tree library's canonical element encoding `Hash.MarshalText`
(external; the handler ignores its error return). -/
abbrev MarshalText := Hash → ByteArrayW

/-- The auxiliary node of a raw merkle proof (`merkletree.NodeAux`). -/
structure NodeAux where
  key : Hash
  value : Hash
  deriving DecidableEq, Repr

/-- A raw merkle proof as the handler consumes it: the existence flag, the
optional auxiliary node, and the sibling list as returned by the external
`Proof.AllSiblings()` (leaf-to-root order). -/
structure MTProof where
  existence : Bool
  nodeAux : Option NodeAux
  allSiblings : List Hash
  deriving DecidableEq, Repr

/-- The issuer-state view carried by a `verifiable.RevocationStatus`; the
handler copies these four fields verbatim. -/
structure IssuerStateView where
  state : Option String
  claimsTreeRoot : Option String
  revocationTreeRoot : Option String
  rootOfRoots : Option String
  deriving DecidableEq, Repr

/-- The claims-service result of `GetRevocationStatus`. -/
structure RevocationStatusRaw where
  issuer : IssuerStateView
  mtp : MTProof
  deriving DecidableEq, Repr

/-- The wire auxiliary-node structure (the anonymous struct at
server.go:167-173); both pointers are always set when the struct is built. -/
structure NodeAuxW where
  key : ByteArrayW
  value : ByteArrayW
  deriving DecidableEq, Repr

/-- The wire proof inside `GetRevocationStatus200JSONResponse`. -/
structure MtpW where
  existence : Bool
  nodeAux : Option NodeAuxW
  siblings : List ByteArrayW
  deriving DecidableEq, Repr

/-- The `GetRevocationStatus200JSONResponse` payload. -/
structure RevStatus200 where
  issuer : IssuerStateView
  mtp : MtpW
  deriving DecidableEq, Repr

/-- `GetRevocationStatusResponseObject`: union of the 200 and 500 shapes. -/
inductive GetRevocationStatusResponseObject where
  | r200 (payload : RevStatus200)
  | r500 (message : String)
  deriving DecidableEq, Repr

/-- `claimService.GetRevocationStatus`: called with the RAW identifier
string and the nonce. -/
abbrev RevocationStatusSvc := String → Nat → Except GoError RevocationStatusRaw

/-- `Server.GetRevocationStatus` (server.go:147-183).  The identifier is not
parsed; the aux-node field is built exactly when `rs.MTP.NodeAux != nil`;
the siblings are the in-order `MarshalText` encodings of
`rs.MTP.AllSiblings()`. -/
def getRevocationStatus (marshalText : MarshalText) (svc : RevocationStatusSvc)
    (identifier : String) (nonce : Nat) :
    Except GoError GetRevocationStatusResponseObject :=
  match svc identifier nonce with
  | .error e => .ok (.r500 e.msg)
  | .ok rs =>
    .ok (.r200
      { issuer := rs.issuer
        mtp :=
          { existence := rs.mtp.existence
            nodeAux := rs.mtp.nodeAux.map
              (fun na => { key := marshalText na.key, value := marshalText na.value })
            siblings := rs.mtp.allSiblings.map marshalText } })

/-- A parsed claim id (`uuid.UUID`), opaque to this layer. -/
structure UUID where
  s : String
  deriving DecidableEq, Repr

/-- The external `uuid.Parse`. -/
abbrev ParseUUID := String → Except String UUID

/-- An internal claim record (`domain.Claim`), opaque to this layer. -/
structure ClaimModel where
  data : String
  deriving DecidableEq, Repr

/-- The schema section of a `verifiable.W3CCredential`. -/
structure CredentialSchemaW3C where
  id : String
  type : String
  deriving DecidableEq, Repr

/-- The fields of a `verifiable.W3CCredential` read by the shaper; payload
fields whose structure the shaper never inspects are kept as opaque
strings or scalars. -/
structure W3CCredential where
  context : List String
  credentialSchema : CredentialSchemaW3C
  credentialStatus : String
  credentialSubject : String
  expiration : Option Nat
  id : String
  issuanceDate : Option Nat
  issuer : String
  proof : String
  type : List String
  deriving DecidableEq, Repr

/-- The wire `CredentialSchema` (positional construction in the source). -/
structure CredentialSchema where
  id : String
  type : String
  deriving DecidableEq, Repr

/-- The wire `GetClaimResponse`. -/
structure GetClaimResponse where
  context : List String
  credentialSchema : CredentialSchema
  credentialStatus : String
  credentialSubject : String
  expiration : Option Nat
  id : String
  issuanceDate : Option Nat
  issuer : String
  proof : String
  type : List String
  deriving DecidableEq, Repr

/-- `toGetClaim200Response` (server.go:329-345): pure field projection. -/
def toGetClaim200Response (claim : W3CCredential) : GetClaimResponse :=
  { context := claim.context
    credentialSchema :=
      { id := claim.credentialSchema.id
        type := claim.credentialSchema.type }
    credentialStatus := claim.credentialStatus
    credentialSubject := claim.credentialSubject
    expiration := claim.expiration
    id := claim.id
    issuanceDate := claim.issuanceDate
    issuer := claim.issuer
    proof := claim.proof
    type := claim.type }

/-- `toGetClaims200Response` (server.go:320-327): allocates a slice of the
same length and fills index `i` with the shaping of `claims[i]`. -/
def toGetClaims200Response (claims : List W3CCredential) : List GetClaimResponse :=
  claims.map toGetClaim200Response

/-- `GetClaimResponseObject`: union of `GetClaim{200,400,404,500}JSONResponse`. -/
inductive GetClaimResponseObject where
  | r200 (payload : GetClaimResponse)
  | r400 (message : String)
  | r404 (message : String)
  | r500 (message : String)
  deriving DecidableEq, Repr

/-- `claimService.GetByID`. -/
abbrev GetByIDSvc := DID → UUID → Except GoError ClaimModel

/-- `schemaService.FromClaimModelToW3CCredential`. -/
abbrev ToW3CSvc := ClaimModel → Except GoError W3CCredential

/-- `Server.GetClaim` (server.go:186-219). -/
def getClaim (parseDID : ParseDID) (parseUUID : ParseUUID)
    (getByID : GetByIDSvc) (toW3C : ToW3CSvc)
    (identifier : String) (claimID : String) :
    Except GoError GetClaimResponseObject :=
  if identifier = "" then .ok (.r400 "invalid did, can not be empty")
  else match parseDID identifier with
  | .error _ => .ok (.r400 "invalid did")
  | .ok did =>
    if claimID = "" then .ok (.r400 "can not proceed with an empty claim id")
    else match parseUUID claimID with
    | .error _ => .ok (.r400 "invalid claim id")
    | .ok clID =>
      match getByID did clID with
      | .error e =>
        if e.tag = .claimNotFound then .ok (.r404 e.msg)
        else .ok (.r500 e.msg)
      | .ok claim =>
        match toW3C claim with
        | .error _ => .ok (.r500 "invalid claim format")
        | .ok w3c => .ok (.r200 (toGetClaim200Response w3c))

/-- The `GetClaims` query parameters, forwarded to `ports.NewClaimsFilter`. -/
structure GetClaimsParams where
  schemaHash : Option String
  schemaType : Option String
  subject : Option String
  queryField : Option String
  self : Option Bool
  revoked : Option Bool
  deriving DecidableEq, Repr

/-- A validated claims filter (`ports.ClaimsFilter`), opaque to this layer. -/
structure ClaimsFilter where
  data : String
  deriving DecidableEq, Repr

/-- The external constructor `ports.NewClaimsFilter`. -/
abbrev NewClaimsFilter := GetClaimsParams → Except GoError ClaimsFilter

/-- `claimService.GetAll`. -/
abbrev GetAllSvc := DID → ClaimsFilter → Except GoError (List W3CCredential)

/-- `GetClaimsResponseObject`: union of `GetClaims{200,400,500}JSONResponse`. -/
inductive GetClaimsResponseObject where
  | r200 (payload : List GetClaimResponse)
  | r400 (message : String)
  | r500 (message : String)
  deriving DecidableEq, Repr

/-- `Server.GetClaims` (server.go:222-243). -/
def getClaims (parseDID : ParseDID) (newClaimsFilter : NewClaimsFilter)
    (getAll : GetAllSvc) (identifier : String) (params : GetClaimsParams) :
    Except GoError GetClaimsResponseObject :=
  if identifier = "" then .ok (.r400 "invalid did, can not be empty")
  else match parseDID identifier with
  | .error _ => .ok (.r400 "invalid did")
  | .ok did =>
    match newClaimsFilter params with
    | .error e => .ok (.r400 e.msg)
    | .ok filter =>
      match getAll did filter with
      | .error _ =>
        .ok (.r500 "there was an internal error trying to retrieve claims for the requested identifier")
      | .ok claims => .ok (.r200 (toGetClaims200Response claims))

/-- `GetIdentitiesResponseObject`: the 200 payload is the service result
relayed as-is (a list of identifier strings), or a 500 shape. -/
inductive GetIdentitiesResponseObject where
  | r200 (payload : List String)
  | r500 (message : String)
  deriving DecidableEq, Repr

/-- `identityService.Get`. -/
abbrev GetIdentitiesSvc := Unit → Except GoError (List String)

/-- `Server.GetIdentities` (server.go:246-257). -/
def getIdentities (svc : GetIdentitiesSvc) :
    Except GoError GetIdentitiesResponseObject :=
  match svc () with
  | .error e => .ok (.r500 e.msg)
  | .ok ids => .ok (.r200 ids)

/-- An unpacked protocol envelope (`iden3comm.BasicMessage`), opaque. -/
structure BasicMessage where
  data : String
  deriving DecidableEq, Repr

/-- A typed internal agent request (`ports.AgentRequest`), opaque. -/
structure AgentReq where
  data : String
  deriving DecidableEq, Repr

/-- The claims-service agent reply (`domain.Agent`): the envelope fields the
handler copies into the wire response. -/
structure AgentMsg where
  body : String
  fromField : String
  id : String
  threadID : String
  toField : String
  typ : String
  type : String
  deriving DecidableEq, Repr

/-- `AgentResponseObject`: union of `Agent{200,400}JSONResponse`; the 200
shape carries the copied envelope fields. -/
inductive AgentResponseObject where
  | r200 (reply : AgentMsg)
  | r400 (message : String)
  deriving DecidableEq, Repr

/-- `packageManager.UnpackWithType` at media type ZKP: external; only
success/failure is observed (the error value is discarded). -/
abbrev UnpackSvc := String → Except String BasicMessage

/-- `ports.NewAgentRequest`. -/
abbrev NewAgentRequest := BasicMessage → Except GoError AgentReq

/-- `claimService.Agent`. -/
abbrev AgentSvc := AgentReq → Except GoError AgentMsg

/-- `Server.Agent` (server.go:260-288).  Only a nil body or the empty string
short-circuits before unpacking; any other body (including whitespace-only
strings) is handed to the package manager. -/
def agent (unpack : UnpackSvc) (newAgentRequest : NewAgentRequest)
    (svc : AgentSvc) (body : Option String) :
    Except GoError AgentResponseObject :=
  match body with
  | none => .ok (.r400 "can not proceed with an empty request")
  | some raw =>
    if raw = "" then .ok (.r400 "can not proceed with an empty request")
    else match unpack raw with
    | .error _ => .ok (.r400 "can not proceed with the given request")
    | .ok basicMessage =>
      match newAgentRequest basicMessage with
      | .error e => .ok (.r400 e.msg)
      | .ok req =>
        match svc req with
        | .error e => .ok (.r400 e.msg)
        | .ok reply => .ok (.r200 reply)

/-- The publisher result (`domain.PublishedState`): the fields relayed into
the 202 response. -/
structure PublishedState where
  claimsTreeRoot : Option String
  revocationTreeRoot : Option String
  rootOfRoots : Option String
  state : Option String
  txID : Option String
  deriving DecidableEq, Repr

/-- `PublishIdentityStateResponseObject`: union of
`PublishIdentityState{200,202,400,500}JSONResponse`; 200 is the non-error
acknowledgment carrying only a message. -/
inductive PublishIdentityStateResponseObject where
  | r200 (message : String)
  | r202 (payload : PublishedState)
  | r400 (message : String)
  | r500 (message : String)
  deriving DecidableEq, Repr

/-- `publisherGateway.PublishState`. -/
abbrev PublishSvc := DID → Except GoError PublishedState

/-- `Server.PublishIdentityState` (server.go:291-312). -/
def publishIdentityState (parseDID : ParseDID) (pub : PublishSvc)
    (identifier : String) : Except GoError PublishIdentityStateResponseObject :=
  match parseDID identifier with
  | .error _ => .ok (.r400 "invalid did")
  | .ok did =>
    match pub did with
    | .error e =>
      if e.tag = .noStatesToProcess ∨ e.tag = .stateIsBeingProcessed then
        .ok (.r200 e.msg)
      else .ok (.r500 e.msg)
    | .ok publishedState => .ok (.r202 publishedState)

/-- An `IdentityState` snapshot as relayed by `CreateIdentity`. -/
structure IdentityStateView where
  blockNumber : Option Nat
  blockTimestamp : Option Nat
  claimsTreeRoot : Option String
  createdAt : Nat
  modifiedAt : Nat
  previousState : Option String
  revocationTreeRoot : Option String
  rootOfRoots : Option String
  state : Option String
  status : String
  txID : Option String
  deriving DecidableEq, Repr

/-- The identity-service result of `Create`. -/
structure Identity where
  identifier : String
  state : IdentityStateView
  deriving DecidableEq, Repr

/-- `CreateIdentityResponseObject`: union of the 201 and 400 shapes (the
handler produces no structured 500 shape). -/
inductive CreateIdentityResponseObject where
  | r201 (identifier : String) (state : IdentityStateView)
  | r400 (message : String)
  deriving DecidableEq, Repr

/-- `identityService.Create`, applied to method, blockchain, network and the
configured server URL. -/
abbrev CreateIdentitySvc := String → String → String → String → Except GoError Identity

/-- `Server.CreateIdentity` (server.go:67-100).  On a collaborator error
other than `ErrWrongDIDMetada` the Go handler returns `(nil, err)`: the raw
error is propagated instead of a structured 500 response, modelled here as
`Except.error`. -/
def createIdentity (svc : CreateIdentitySvc)
    (method blockchain network serverUrl : String) :
    Except GoError CreateIdentityResponseObject :=
  match svc method blockchain network serverUrl with
  | .error e =>
    if e.tag = .wrongDIDMetadata then .ok (.r400 e.msg)
    else .error e
  | .ok identity => .ok (.r201 identity.identifier identity.state)

end IssuerAPI

namespace IssuerAPI

/-- C2: over a valid DID, `CreateClaim` maps a JSON-LD-context failure, a
schema-processing failure and a malformed-URL failure to a 400 outcome, a
schema-load failure to a 422 outcome, and every other collaborator error to
a 500 outcome, each carrying the error's own message. -/
theorem createClaim_error_mapping (parseDID : ParseDID) (svc : CreateClaimSvc)
    (identifier : String) (body : CreateClaimBody) (did : DID) (e : GoError)
    (hp : parseDID identifier = .ok did)
    (hs : svc did body = .error e) :
    createClaim parseDID svc identifier body =
      .ok (if e.tag = .jsonLdContext ∨ e.tag = .processSchema ∨ e.tag = .malformedURL
        then .r400 e.msg
        else if e.tag = .loadingSchema then .r422 e.msg
        else .r500 e.msg) := by
  simp only [createClaim, hp, hs]
  rcases e with ⟨tag, msg⟩
  cases tag <;> simp

/-- C1 counterexample: the empty identifier is malformed, yet `RevokeClaim`
does not return a 400 outcome: it forwards the raw string to the claims
collaborator, and the outcome (202 or 500 here) depends on the
collaborator's behavior. -/
theorem revokeClaim_malformed_identifier_counterexample :
    revokeClaim (fun _ _ => Except.ok ()) "" 7
      = Except.ok (RevokeClaimResponseObject.r202 "claim revocation request sent") ∧
    revokeClaim (fun _ _ => Except.error ⟨.other, "storage failure"⟩) "" 7
      = Except.ok (RevokeClaimResponseObject.r500 "storage failure") := by
  exact ⟨rfl, rfl⟩

/-- C1 amended: for every malformed identifier (one the DID parser rejects),
the operations that do validate the identifier — `CreateClaim`, `GetClaim`,
`GetClaims` and `PublishIdentityState` — return a 400 outcome and their
result is independent of every collaborator; `RevokeClaim` and
`GetRevocationStatus` skip the validation. -/
theorem malformed_identifier_rejected (pd : ParseDID) (s m : String)
    (h : pd s = .error m)
    (c1 c2 : CreateClaimSvc) (body : CreateClaimBody)
    (u1 u2 : ParseUUID) (g1 g2 : GetByIDSvc) (w1 w2 : ToW3CSvc) (cid : String)
    (f1 f2 : NewClaimsFilter) (a1 a2 : GetAllSvc) (ps : GetClaimsParams)
    (p1 p2 : PublishSvc) :
    (createClaim pd c1 s body = .ok (.r400 m) ∧
      createClaim pd c1 s body = createClaim pd c2 s body) ∧
    ((∃ msg, getClaim pd u1 g1 w1 s cid = .ok (.r400 msg)) ∧
      getClaim pd u1 g1 w1 s cid = getClaim pd u2 g2 w2 s cid) ∧
    ((∃ msg, getClaims pd f1 a1 s ps = .ok (.r400 msg)) ∧
      getClaims pd f1 a1 s ps = getClaims pd f2 a2 s ps) ∧
    (publishIdentityState pd p1 s = .ok (.r400 "invalid did") ∧
      publishIdentityState pd p1 s = publishIdentityState pd p2 s) := by
  by_cases hs : s = ""
  · subst hs
    refine ⟨⟨?_, ?_⟩, ⟨⟨"invalid did, can not be empty", ?_⟩, ?_⟩,
      ⟨⟨"invalid did, can not be empty", ?_⟩, ?_⟩, ⟨?_, ?_⟩⟩ <;>
      simp [createClaim, getClaim, getClaims, publishIdentityState, h]
  · refine ⟨⟨?_, ?_⟩, ⟨⟨"invalid did", ?_⟩, ?_⟩,
      ⟨⟨"invalid did", ?_⟩, ?_⟩, ⟨?_, ?_⟩⟩ <;>
      simp [createClaim, getClaim, getClaims, publishIdentityState, h, hs]

/-- C1 amended witness: the malformed identifier "not-a-did" is rejected
with a 400 outcome by the four validating operations. -/
theorem malformed_identifier_rejected_witness :
    (fun (_ : String) => (Except.error "invalid DID" : Except String DID)) "not-a-did"
        = .error "invalid DID" ∧
    createClaim (fun _ => Except.error "invalid DID")
        (fun _ _ => Except.error ⟨.other, "x"⟩) "not-a-did"
        ⟨"", "", none, "", none, none, none⟩
      = Except.ok (CreateClaimResponseObject.r400 "invalid DID") := by
  refine ⟨rfl, ?_⟩
  exact (malformed_identifier_rejected (fun _ => Except.error "invalid DID")
    "not-a-did" "invalid DID" rfl
    (fun _ _ => Except.error ⟨.other, "x"⟩) (fun _ _ => Except.error ⟨.other, "x"⟩)
    ⟨"", "", none, "", none, none, none⟩
    (fun _ => Except.error "u") (fun _ => Except.error "u")
    (fun _ _ => Except.error ⟨.other, "x"⟩) (fun _ _ => Except.error ⟨.other, "x"⟩)
    (fun _ => Except.error ⟨.other, "x"⟩) (fun _ => Except.error ⟨.other, "x"⟩) "cid"
    (fun _ => Except.error ⟨.other, "x"⟩) (fun _ => Except.error ⟨.other, "x"⟩)
    (fun _ _ => Except.error ⟨.other, "x"⟩) (fun _ _ => Except.error ⟨.other, "x"⟩)
    ⟨none, none, none, none, none, none⟩
    (fun _ => Except.error ⟨.other, "x"⟩) (fun _ => Except.error ⟨.other, "x"⟩)).1.1

/-- C2 witness: issuing a claim over a valid DID with an unresolvable
(malformed-URL) schema reference yields a 400 outcome, not a 500 one. -/
theorem createClaim_error_mapping_witness :
    createClaim (fun s => Except.ok ⟨s⟩)
      (fun _ _ => Except.error ⟨.malformedURL, "invalid URL"⟩)
      "did:polygonid:polygon:mumbai:2qE1BZ7gcmEoP2KppvFPCZqyzyb5tK9T6Gec5HFANQ"
      ⟨"ipfs://bad", "{}", none, "KYCAgeCredential", none, none, none⟩
      = Except.ok (CreateClaimResponseObject.r400 "invalid URL") := by
  have h := createClaim_error_mapping (fun s => Except.ok ⟨s⟩)
    (fun _ _ => Except.error ⟨.malformedURL, "invalid URL"⟩)
    "did:polygonid:polygon:mumbai:2qE1BZ7gcmEoP2KppvFPCZqyzyb5tK9T6Gec5HFANQ"
    ⟨"ipfs://bad", "{}", none, "KYCAgeCredential", none, none, none⟩
    ⟨"did:polygonid:polygon:mumbai:2qE1BZ7gcmEoP2KppvFPCZqyzyb5tK9T6Gec5HFANQ"⟩
    ⟨.malformedURL, "invalid URL"⟩ rfl rfl
  simpa using h

/-- C3 counterexample: a raw proof with `existence = true` that carries an
auxiliary node still produces a response with the aux-node field present —
the handler keys only on `NodeAux != nil`, not on the existence flag. -/
theorem nodeAux_present_despite_existence_counterexample :
    getRevocationStatus (fun h => toString h.val)
      (fun _ _ => Except.ok
        { issuer := ⟨none, none, none, none⟩
          mtp := { existence := true, nodeAux := some ⟨⟨1⟩, ⟨2⟩⟩, allSiblings := [] } })
      "did:x" 0
      = Except.ok (.r200
          { issuer := ⟨none, none, none, none⟩
            mtp := { existence := true, nodeAux := some ⟨"1", "2"⟩, siblings := [] } }) := by
  rfl

/-- C3 amended: in every successful `GetRevocationStatus` response the
aux-node field is present iff the raw proof carries a non-empty auxiliary
node (regardless of the existence flag); when present its key and value are
the canonical `MarshalText` encodings of the raw aux key and value, and
when absent the field is omitted. -/
theorem getRevocationStatus_nodeAux (mt : MarshalText) (svc : RevocationStatusSvc)
    (identifier : String) (nonce : Nat) (rs : RevocationStatusRaw)
    (h : svc identifier nonce = .ok rs) :
    ∃ p, getRevocationStatus mt svc identifier nonce = .ok (.r200 p) ∧
      (p.mtp.nodeAux.isSome ↔ rs.mtp.nodeAux.isSome) ∧
      p.mtp.nodeAux = rs.mtp.nodeAux.map
        (fun na => { key := mt na.key, value := mt na.value }) := by
  refine ⟨{ issuer := rs.issuer
            mtp :=
              { existence := rs.mtp.existence
                nodeAux := rs.mtp.nodeAux.map
                  (fun na => { key := mt na.key, value := mt na.value })
                siblings := rs.mtp.allSiblings.map mt } }, ?_, ?_, rfl⟩
  · simp [getRevocationStatus, h]
  · cases rs.mtp.nodeAux <;> simp

/-- C3 amended witness: a non-existence proof with an auxiliary node is
assembled with the encoded aux node present. -/
theorem getRevocationStatus_nodeAux_witness :
    ∃ p, getRevocationStatus (fun h => toString h.val)
        (fun _ _ => Except.ok
          { issuer := ⟨none, none, none, none⟩
            mtp := { existence := false, nodeAux := some ⟨⟨3⟩, ⟨0⟩⟩, allSiblings := [] } })
        "did:y" 5
      = Except.ok (.r200 p) ∧
      (p.mtp.nodeAux.isSome ↔
        (some (⟨⟨3⟩, ⟨0⟩⟩ : NodeAux)).isSome) ∧
      p.mtp.nodeAux = (some (⟨⟨3⟩, ⟨0⟩⟩ : NodeAux)).map
        (fun na => { key := toString na.key.val, value := toString na.value.val }) := by
  exact getRevocationStatus_nodeAux (fun h => toString h.val) _ "did:y" 5
    { issuer := ⟨none, none, none, none⟩
      mtp := { existence := false, nodeAux := some ⟨⟨3⟩, ⟨0⟩⟩, allSiblings := [] } } rfl

/-- C4: in every successful `GetRevocationStatus` response the sibling
sequence has the same length as the raw proof's sibling list and position
`i` of the output is the canonical encoding of position `i` of the input:
nothing is reordered or deduplicated. -/
theorem getRevocationStatus_siblings (mt : MarshalText) (svc : RevocationStatusSvc)
    (identifier : String) (nonce : Nat) (rs : RevocationStatusRaw)
    (h : svc identifier nonce = .ok rs) :
    ∃ p, getRevocationStatus mt svc identifier nonce = .ok (.r200 p) ∧
      p.mtp.siblings.length = rs.mtp.allSiblings.length ∧
      ∀ i : Nat, p.mtp.siblings[i]? = (rs.mtp.allSiblings[i]?).map mt := by
  refine ⟨{ issuer := rs.issuer
            mtp :=
              { existence := rs.mtp.existence
                nodeAux := rs.mtp.nodeAux.map
                  (fun na => { key := mt na.key, value := mt na.value })
                siblings := rs.mtp.allSiblings.map mt } }, ?_, ?_, ?_⟩
  · simp [getRevocationStatus, h]
  · simp
  · intro i
    simp

/-- C4 witness: a two-sibling proof is encoded element-wise in order. -/
theorem getRevocationStatus_siblings_witness :
    ∃ p, getRevocationStatus (fun h => toString h.val)
        (fun _ _ => Except.ok
          { issuer := ⟨none, none, none, none⟩
            mtp := { existence := true, nodeAux := none, allSiblings := [⟨10⟩, ⟨20⟩] } })
        "did:z" 1
      = Except.ok (.r200 p) ∧
      p.mtp.siblings.length = ([⟨10⟩, ⟨20⟩] : List Hash).length ∧
      ∀ i : Nat, p.mtp.siblings[i]? =
        (([⟨10⟩, ⟨20⟩] : List Hash)[i]?).map (fun h => toString h.val) := by
  exact getRevocationStatus_siblings (fun h => toString h.val) _ "did:z" 1
    { issuer := ⟨none, none, none, none⟩
      mtp := { existence := true, nodeAux := none, allSiblings := [⟨10⟩, ⟨20⟩] } } rfl

/-- C5: over a valid DID, `PublishIdentityState` turns the publisher
sentinels "no pending state" and "publication already in progress" into a
200 non-error acknowledgment carrying the sentinel's message, and every
other publisher error into a 500 outcome. -/
theorem publishIdentityState_sentinels (pd : ParseDID) (pub : PublishSvc)
    (s : String) (did : DID) (e : GoError)
    (hp : pd s = .ok did) (he : pub did = .error e) :
    publishIdentityState pd pub s =
      .ok (if e.tag = .noStatesToProcess ∨ e.tag = .stateIsBeingProcessed
        then .r200 e.msg
        else .r500 e.msg) := by
  simp only [publishIdentityState, hp, he]
  by_cases hc : e.tag = ErrTag.noStatesToProcess ∨ e.tag = ErrTag.stateIsBeingProcessed <;>
    simp [hc]

/-- C5 witness: the "no pending state" sentinel is acknowledged with a 200
outcome, not an error. -/
theorem publishIdentityState_sentinels_witness :
    publishIdentityState (fun s => Except.ok ⟨s⟩)
      (fun _ => Except.error ⟨.noStatesToProcess, "no states to process"⟩) "did:w"
      = Except.ok (PublishIdentityStateResponseObject.r200 "no states to process") := by
  have h := publishIdentityState_sentinels (fun s => Except.ok ⟨s⟩)
    (fun _ => Except.error ⟨.noStatesToProcess, "no states to process"⟩)
    "did:w" ⟨"did:w"⟩ ⟨.noStatesToProcess, "no states to process"⟩ rfl rfl
  simpa using h

/-- C6 counterexample: a whitespace-only body (" ") is NOT short-circuited:
it is handed to the package manager, and the outcome depends on unpack —
with a succeeding pipeline the dispatcher even returns a 200 reply, not a
400 outcome. -/
theorem agent_whitespace_counterexample :
    agent (fun s => Except.ok ⟨s⟩) (fun bm => Except.ok ⟨bm.data⟩)
        (fun _ => Except.ok ⟨"b", "f", "i", "th", "t", "typ", "ty"⟩) (some " ")
      = Except.ok (AgentResponseObject.r200 ⟨"b", "f", "i", "th", "t", "typ", "ty"⟩) ∧
    agent (fun _ => Except.error "invalid signature") (fun bm => Except.ok ⟨bm.data⟩)
        (fun _ => Except.ok ⟨"b", "f", "i", "th", "t", "typ", "ty"⟩) (some " ")
      = Except.ok (AgentResponseObject.r400 "can not proceed with the given request") := by
  exact ⟨rfl, rfl⟩

/-- C6 amended: a nil body or the empty string yields the 400 outcome
"can not proceed with an empty request" and the result is independent of
the package manager and every other collaborator; a whitespace-only body is
instead forwarded to the unpack operation. -/
theorem agent_empty_body (u1 u2 : UnpackSvc) (n1 n2 : NewAgentRequest)
    (s1 s2 : AgentSvc) :
    agent u1 n1 s1 none = .ok (.r400 "can not proceed with an empty request") ∧
    agent u1 n1 s1 (some "") = .ok (.r400 "can not proceed with an empty request") ∧
    agent u1 n1 s1 none = agent u2 n2 s2 none ∧
    agent u1 n1 s1 (some "") = agent u2 n2 s2 (some "") := by
  refine ⟨rfl, ?_, rfl, ?_⟩ <;> simp [agent]

/-- C8: the bulk shaper returns a sequence of the same length whose element
at index `i` is exactly the single-credential shaping of `cs[i]`: no
filtering, reordering or recomputation. -/
theorem toGetClaims200Response_pointwise (cs : List W3CCredential) :
    (toGetClaims200Response cs).length = cs.length ∧
    ∀ i : Nat, (toGetClaims200Response cs)[i]? = (cs[i]?).map toGetClaim200Response := by
  constructor
  · simp [toGetClaims200Response]
  · intro i
    simp [toGetClaims200Response]

/-- C9: when the revocation collaborator reports the claim-does-not-exist
sentinel, `RevokeClaim` returns a 404 outcome with the exact message
"the claim does not exist". -/
theorem revokeClaim_not_found (svc : RevokeSvc) (identifier : String)
    (nonce : Nat) (e : GoError)
    (h : svc identifier nonce = .error e) (ht : e.tag = .claimDoesNotExist) :
    revokeClaim svc identifier nonce
      = .ok (.r404 "the claim does not exist") := by
  simp [revokeClaim, h, ht]

/-- C9 witness: revoking a never-issued nonce (the collaborator reports the
claim-does-not-exist sentinel) yields the 404 outcome with the exact
message. -/
theorem revokeClaim_not_found_witness :
    revokeClaim (fun _ _ => Except.error ⟨.claimDoesNotExist, "not found"⟩)
      "did:v" 42
      = Except.ok (RevokeClaimResponseObject.r404 "the claim does not exist") := by
  exact revokeClaim_not_found (fun _ _ => Except.error ⟨.claimDoesNotExist, "not found"⟩)
    "did:v" 42 ⟨.claimDoesNotExist, "not found"⟩ rfl rfl

/-- C7 counterexample: an unrecognized list-retrieval error with message
"boom" makes `GetClaims` answer 500 with a fixed generic string, not with
the original message. -/
theorem getClaims_generic_message_counterexample :
    getClaims (fun s => Except.ok ⟨s⟩) (fun _ => Except.ok ⟨"f"⟩)
        (fun _ _ => Except.error ⟨.other, "boom"⟩) "did:x"
        ⟨none, none, none, none, none, none⟩
      = Except.ok (.r500
          "there was an internal error trying to retrieve claims for the requested identifier") ∧
    ("there was an internal error trying to retrieve claims for the requested identifier"
      ≠ "boom") := by
  exact ⟨rfl, by decide⟩

/-- C7 amended: `CreateClaim`, `RevokeClaim`, `GetRevocationStatus`,
`GetIdentities`, `PublishIdentityState` and `GetClaim`'s fetch step map an
unrecognized collaborator error to a 500 outcome carrying the original
message verbatim; but `GetClaims`'s retrieval failure and `GetClaim`'s
shaping failure answer 500 with fixed generic messages, `Agent` maps
collaborator failures to 400 outcomes, and `CreateIdentity` propagates the
raw Go error. -/
theorem unrecognized_errors_surfaced (pd : ParseDID) (s : String) (did : DID)
    (hp : pd s = .ok did) (hs0 : s ≠ "")
    (pu : ParseUUID) (cid : String) (u : UUID)
    (hu : pu cid = .ok u) (hc0 : cid ≠ "")
    (raw : String) (hr : raw ≠ "")
    (e : GoError) (body : CreateClaimBody) (ps : GetClaimsParams)
    (filter : ClaimsFilter) (cm : ClaimModel) (w : ToW3CSvc)
    (mt : MarshalText) (i : String) (n : Nat)
    (method blockchain network serverUrl : String) :
    (e.tag ∉ [ErrTag.jsonLdContext, ErrTag.processSchema, ErrTag.loadingSchema,
        ErrTag.malformedURL] →
      createClaim pd (fun _ _ => .error e) s body = .ok (.r500 e.msg)) ∧
    (e.tag ≠ .claimDoesNotExist →
      revokeClaim (fun _ _ => .error e) i n = .ok (.r500 e.msg)) ∧
    getRevocationStatus mt (fun _ _ => .error e) i n = .ok (.r500 e.msg) ∧
    getIdentities (fun _ => .error e) = .ok (.r500 e.msg) ∧
    (e.tag ∉ [ErrTag.noStatesToProcess, ErrTag.stateIsBeingProcessed] →
      publishIdentityState pd (fun _ => .error e) s = .ok (.r500 e.msg)) ∧
    (e.tag ≠ .claimNotFound →
      getClaim pd pu (fun _ _ => .error e) w s cid = .ok (.r500 e.msg)) ∧
    getClaim pd pu (fun _ _ => .ok cm) (fun _ => .error e) s cid
      = .ok (.r500 "invalid claim format") ∧
    getClaims pd (fun _ => .ok filter) (fun _ _ => .error e) s ps
      = .ok (.r500
          "there was an internal error trying to retrieve claims for the requested identifier") ∧
    agent (fun b => Except.ok ⟨b⟩) (fun bm => Except.ok ⟨bm.data⟩)
        (fun _ => .error e) (some raw) = .ok (.r400 e.msg) ∧
    (e.tag ≠ .wrongDIDMetadata →
      createIdentity (fun _ _ _ _ => .error e) method blockchain network serverUrl
        = .error e) := by
  refine ⟨?_, ?_, ?_, ?_, ?_, ?_, ?_, ?_, ?_, ?_⟩
  · intro hm
    simp only [List.mem_cons, List.not_mem_nil, or_false] at hm
    push_neg at hm
    obtain ⟨h1, h2, h3, h4⟩ := hm
    simp [createClaim, hp, h1, h2, h3, h4]
  · intro hne
    simp [revokeClaim, hne]
  · simp [getRevocationStatus]
  · rfl
  · intro hm
    simp only [List.mem_cons, List.not_mem_nil, or_false] at hm
    push_neg at hm
    obtain ⟨h1, h2⟩ := hm
    simp [publishIdentityState, hp, h1, h2]
  · intro hne
    simp [getClaim, hp, hu, hs0, hc0, hne]
  · simp [getClaim, hp, hu, hs0, hc0]
  · simp [getClaims, hp, hs0]
  · simp [agent, hr]
  · intro hne
    simp [createIdentity, hne]

/-- C7 amended witness: the unrecognized error "boom" is surfaced verbatim
in a 500 outcome by `CreateClaim` and `RevokeClaim`, while `GetClaims`
replaces it with a generic message. -/
theorem unrecognized_errors_surfaced_witness :
    createClaim (fun _ => Except.ok ⟨"d"⟩) (fun _ _ => Except.error ⟨.other, "boom"⟩)
        "did:x" ⟨"", "", none, "", none, none, none⟩
      = Except.ok (CreateClaimResponseObject.r500 "boom") ∧
    revokeClaim (fun _ _ => Except.error ⟨.other, "boom"⟩) "did:x" 0
      = Except.ok (RevokeClaimResponseObject.r500 "boom") ∧
    getClaims (fun _ => Except.ok ⟨"d"⟩) (fun _ => Except.ok ⟨"f"⟩)
        (fun _ _ => Except.error ⟨.other, "boom"⟩) "did:x"
        ⟨none, none, none, none, none, none⟩
      = Except.ok (GetClaimsResponseObject.r500
          "there was an internal error trying to retrieve claims for the requested identifier") := by
  have h := unrecognized_errors_surfaced (fun _ => Except.ok ⟨"d"⟩) "did:x" ⟨"d"⟩
    rfl (by decide)
    (fun _ => Except.ok ⟨"u"⟩) "cid" ⟨"u"⟩ rfl (by decide)
    "raw" (by decide)
    ⟨.other, "boom"⟩ ⟨"", "", none, "", none, none, none⟩
    ⟨none, none, none, none, none, none⟩
    ⟨"f"⟩ ⟨"cm"⟩ (fun _ => Except.error ⟨.other, "w3c"⟩)
    (fun _ => "00") "did:x" 0
    "m" "b" "n" "u"
  exact ⟨h.1 (by decide), h.2.1 (by decide), h.2.2.2.2.2.2.2.1⟩

/-- Helper: `CreateClaim` returns a structured response and a nil Go error
on every input. -/
theorem createClaim_total (pd : ParseDID) (c : CreateClaimSvc) (i : String)
    (b : CreateClaimBody) : ∃ r, createClaim pd c i b = Except.ok r := by
  unfold createClaim
  repeat' split
  all_goals exact ⟨_, rfl⟩

/-- Helper: `RevokeClaim` returns a structured response and a nil Go error
on every input. -/
theorem revokeClaim_total (svc : RevokeSvc) (i : String) (n : Nat) :
    ∃ r, revokeClaim svc i n = Except.ok r := by
  unfold revokeClaim
  repeat' split
  all_goals exact ⟨_, rfl⟩

/-- Helper: `GetRevocationStatus` returns a structured response and a nil
Go error on every input. -/
theorem getRevocationStatus_total (mt : MarshalText) (svc : RevocationStatusSvc)
    (i : String) (n : Nat) : ∃ r, getRevocationStatus mt svc i n = Except.ok r := by
  unfold getRevocationStatus
  repeat' split
  all_goals exact ⟨_, rfl⟩

/-- Helper: `GetClaim` returns a structured response and a nil Go error on
every input. -/
theorem getClaim_total (pd : ParseDID) (pu : ParseUUID) (g : GetByIDSvc)
    (w : ToW3CSvc) (i cid : String) : ∃ r, getClaim pd pu g w i cid = Except.ok r := by
  unfold getClaim
  repeat' split
  all_goals exact ⟨_, rfl⟩

/-- Helper: `GetClaims` returns a structured response and a nil Go error on
every input. -/
theorem getClaims_total (pd : ParseDID) (f : NewClaimsFilter) (a : GetAllSvc)
    (i : String) (ps : GetClaimsParams) : ∃ r, getClaims pd f a i ps = Except.ok r := by
  unfold getClaims
  repeat' split
  all_goals exact ⟨_, rfl⟩

/-- Helper: `GetIdentities` returns a structured response and a nil Go
error on every input. -/
theorem getIdentities_total (svc : GetIdentitiesSvc) :
    ∃ r, getIdentities svc = Except.ok r := by
  unfold getIdentities
  repeat' split
  all_goals exact ⟨_, rfl⟩

/-- Helper: `Agent` returns a structured response and a nil Go error on
every input. -/
theorem agent_total (u : UnpackSvc) (na : NewAgentRequest) (svc : AgentSvc)
    (body : Option String) : ∃ r, agent u na svc body = Except.ok r := by
  unfold agent
  repeat' split
  all_goals exact ⟨_, rfl⟩

/-- Helper: `PublishIdentityState` returns a structured response and a nil
Go error on every input. -/
theorem publishIdentityState_total (pd : ParseDID) (pub : PublishSvc)
    (i : String) : ∃ r, publishIdentityState pd pub i = Except.ok r := by
  unfold publishIdentityState
  repeat' split
  all_goals exact ⟨_, rfl⟩

/-- C10: when the identity collaborator fails with an error other than the
wrong-DID-metadata sentinel, `CreateIdentity` returns a nil response
together with the raw Go error; every other operation returns a structured
response object and a nil Go error on every input, collaborator failures
included. -/
theorem createIdentity_raw_error_propagation (svc : CreateIdentitySvc)
    (method blockchain network serverUrl : String) (e : GoError)
    (h : svc method blockchain network serverUrl = .error e)
    (ht : e.tag ≠ .wrongDIDMetadata) :
    createIdentity svc method blockchain network serverUrl = .error e ∧
    (∀ (pd : ParseDID) (c : CreateClaimSvc) (i : String) (b : CreateClaimBody),
      ∃ r, createClaim pd c i b = Except.ok r) ∧
    (∀ (rv : RevokeSvc) (i : String) (n : Nat),
      ∃ r, revokeClaim rv i n = Except.ok r) ∧
    (∀ (mt : MarshalText) (rsvc : RevocationStatusSvc) (i : String) (n : Nat),
      ∃ r, getRevocationStatus mt rsvc i n = Except.ok r) ∧
    (∀ (pd : ParseDID) (pu : ParseUUID) (g : GetByIDSvc) (w : ToW3CSvc) (i cid : String),
      ∃ r, getClaim pd pu g w i cid = Except.ok r) ∧
    (∀ (pd : ParseDID) (f : NewClaimsFilter) (a : GetAllSvc) (i : String)
        (ps : GetClaimsParams),
      ∃ r, getClaims pd f a i ps = Except.ok r) ∧
    (∀ (gs : GetIdentitiesSvc), ∃ r, getIdentities gs = Except.ok r) ∧
    (∀ (up : UnpackSvc) (na : NewAgentRequest) (ag : AgentSvc) (body : Option String),
      ∃ r, agent up na ag body = Except.ok r) ∧
    (∀ (pd : ParseDID) (pb : PublishSvc) (i : String),
      ∃ r, publishIdentityState pd pb i = Except.ok r) := by
  refine ⟨?_, createClaim_total, revokeClaim_total, getRevocationStatus_total,
    getClaim_total, getClaims_total, getIdentities_total, agent_total,
    publishIdentityState_total⟩
  simp [createIdentity, h, ht]

/-- C10 witness: a plain database failure makes `CreateIdentity` return the
raw error itself rather than a structured 500 outcome. -/
theorem createIdentity_raw_error_propagation_witness :
    createIdentity (fun _ _ _ _ => Except.error ⟨.other, "database down"⟩)
      "polygonid" "polygon" "mumbai" "http://localhost"
      = Except.error ⟨.other, "database down"⟩ := by
  exact (createIdentity_raw_error_propagation
    (fun _ _ _ _ => Except.error ⟨.other, "database down"⟩)
    "polygonid" "polygon" "mumbai" "http://localhost"
    ⟨.other, "database down"⟩ rfl (by decide)).1

end IssuerAPI
